import Mathlib

/-!
# Verification of the `chat-cli` command-line chat client

Shallow embedding of the repository's two source modules, `src/client.py`
and `src/main.py`, together with theorems settling the specification's
claims about configuration layering, the completion client, terminal
capability detection, render-mode selection, and the interactive session
driver.

Python strings are modelled as Lean `String` (a wrapper around `List Char`),
with the Python primitives `str.lower`, `str.strip` and the `in` substring
test re-implemented over the character list. The process environment is
modelled as a function `String → Option String` (`os.getenv`), and a parsed
dotenv file as an association list of `KEY = VALUE` pairs in file order.
-/

namespace ChatCli

/-! ## Python string primitives -/

/-- The ASCII whitespace characters stripped by Python's `str.strip()`. -/
def pyIsSpace (c : Char) : Bool :=
  c = ' ' || c = '\t' || c = '\n' || c = '\r' || c = '\x0b' || c = '\x0c'

/-- Python `str.lower` on a single character (ASCII range, which covers every
string the program compares after lowering). -/
def pyLowerChar (c : Char) : Char :=
  if 'A' ≤ c ∧ c ≤ 'Z' then Char.ofNat (c.toNat + 32) else c

/-- Python `str.lower`. -/
def pyLower (s : String) : String :=
  ⟨s.data.map pyLowerChar⟩

/-- Drop leading and trailing whitespace from a character list. -/
def stripChars (l : List Char) : List Char :=
  ((l.dropWhile pyIsSpace).reverse.dropWhile pyIsSpace).reverse

/-- Python `str.strip()`. -/
def pyStrip (s : String) : String :=
  ⟨stripChars s.data⟩

/-- Contiguous-sublist test on character lists (Python `needle in hay`). -/
def isInfixChars : List Char → List Char → Bool
  | needle, [] => needle.isEmpty
  | needle, c :: rest => needle.isPrefixOf (c :: rest) || isInfixChars needle rest

/-- Python's substring membership test `needle in hay` for strings. -/
def pyIn (needle hay : String) : Bool :=
  isInfixChars needle.data hay.data

/-- Python truthiness of an `os.getenv` result: `None` and the empty string
are falsy, any other string is truthy. -/
def optTruthy (o : Option String) : Bool :=
  match o with
  | none => false
  | some s => !(s = "")

/-! ## Process environment and dotenv layering (`src/client.py`) -/

/-- The process environment, as queried through `os.getenv`. -/
def Env : Type := String → Option String

/-- A parsed dotenv file: its `KEY = VALUE` pairs in file order. -/
def EnvFile : Type := List (String × String)

/-- Left-biased choice on optional values. -/
def orO (a b : Option String) : Option String :=
  match a with
  | some v => some v
  | none => b

/-- The value a dotenv file assigns to a key: the last `KEY = VALUE` line for
that key wins (python-dotenv parses the file into an ordered dict). -/
def lookupLast : EnvFile → String → Option String
  | [], _ => none
  | kv :: rest, k => orO (lookupLast rest k) (if kv.1 = k then some kv.2 else none)

/-- Modelled from the semantics of python-dotenv's `load_dotenv` (library code,
not part of this repository): every key of the parsed file is written into the
process environment; with `override = False` a key already present in the
environment is left untouched, with `override = True` it is overwritten. -/
def load_dotenv (env : Env) (file : EnvFile) (override : Bool) : Env :=
  fun k =>
    match lookupLast file k with
    | some v =>
        if override then some v
        else
          match env k with
          | some w => some w
          | none => some v
    | none => env k

/-- `load_env_files` from `src/client.py`: first load the global per-user
config file (no override), then the local `.env` file with `override=True`.
A missing file is represented by the empty list (loading it is a no-op). -/
def load_env_files (procEnv : Env) (globalFile localFile : EnvFile) : Env :=
  let env1 := load_dotenv procEnv globalFile false
  load_dotenv env1 localFile true

/-! ## Completion client construction (`OpenAIClient.__init__`) -/

/-- The resolved client configuration held by a constructed `OpenAIClient`. -/
structure ClientConfig where
  api_key : String
  base_url : String
  model : String
deriving DecidableEq, Repr

/-- `OpenAIClient.__init__` from `src/client.py`: reads the three variables
from the environment, applies the documented defaults for `OPENAI_BASE_URL`
and `OPENAI_MODEL`, and raises `ValueError` when `OPENAI_API_KEY` is absent
or empty (Python falsiness of `None` and `""`). -/
def clientInit (env : Env) : Except String ClientConfig :=
  match env "OPENAI_API_KEY" with
  | none => .error "OPENAI_API_KEY environment variable is required"
  | some k =>
      if k = "" then .error "OPENAI_API_KEY environment variable is required"
      else .ok ⟨k, (env "OPENAI_BASE_URL").getD "https://api.openai.com/v1",
        (env "OPENAI_MODEL").getD "gpt-3.5-turbo"⟩

/-! ## Completion calls (`src/client.py`)

The remote service is modelled at the boundary the code consumes:
a non-streaming `create` call either raises (normalised to the wrapped
`Exception` text) or returns a response object with a list of choices, each
carrying an optional message content; a streaming `create` call either raises
at once or yields a sequence of optional delta contents followed by an
optional mid-iteration transport failure. -/

/-- A message as sent to the API: a role/content dictionary. -/
structure ApiMessage where
  role : String
  content : String
deriving DecidableEq, Repr

/-- One choice of a non-streaming chat-completion response. -/
structure ApiChoice where
  content : Option String
deriving DecidableEq, Repr

/-- A non-streaming chat-completion response object. -/
structure ApiResponse where
  choices : List ApiChoice
deriving DecidableEq, Repr

/-- What the (mocked) transport does for one non-streaming `create` call:
either raises with a message, or returns a response object. -/
def CreateResult : Type := Except String ApiResponse

/-- What the (mocked) transport does for one streaming `create` call: either
`create` itself raises, or the stream yields the listed delta contents in
order and then either ends normally (`none`) or raises mid-iteration
(`some err`). -/
def StreamResult : Type := Except String (List (Option String) × Option String)

/-- The `except Exception` blocks in `src/client.py` re-raise every failure as
`Exception("API call failed: " + str(e))`; this is the wrapped message. -/
def apiFail (e : String) : String := "API call failed: " ++ e

/-- `OpenAIClient.chat_with_history` with `stream=False`: issues one `create`
call and returns `response.choices[0].message.content`; any exception inside
the `try` block — including the `IndexError` from indexing an empty `choices`
list — is wrapped into `Exception("API call failed: ...")`. -/
def chat_with_history (backend : CreateResult) : Except String (Option String) :=
  match backend with
  | .error e => .error (apiFail e)
  | .ok rsp =>
      match rsp.choices with
      | [] => .error (apiFail "list index out of range")
      | c :: _ => .ok c.content

/-- The default system prompt hard-coded in `src/client.py` and
`src/main.py`. -/
def defaultSystemPrompt : String := "You are a helpful assistant"

/-- The message list built by `OpenAIClient.chat` / `chat_stream`: the given
system prompt when truthy (non-empty), else the default, followed by the user
message. -/
def buildSingleMessages (message : String) (system_prompt : Option String) :
    List ApiMessage :=
  (if optTruthy system_prompt then
    [⟨"system", system_prompt.getD ""⟩]
  else
    [⟨"system", defaultSystemPrompt⟩]) ++ [⟨"user", message⟩]

/-- A Python generator object as returned by `OpenAIClient._chat_stream`:
calling the generator function runs none of its body — it only captures the
argument (the message list). No transport interaction and no exception can
happen until the generator is first iterated, which is why this type carries
only the captured request and is not fallible. -/
structure ChatStreamGenerator where
  messages : List ApiMessage
deriving DecidableEq, Repr

/-- `OpenAIClient.chat_with_history_stream`: returns the generator
`_chat_stream(messages)` unevaluated. -/
def chat_with_history_stream (messages : List ApiMessage) : ChatStreamGenerator :=
  ⟨messages⟩

/-- `OpenAIClient.chat_stream`: builds the two-message list and returns the
generator `_chat_stream(messages)` unevaluated. -/
def chat_stream (message : String) (system_prompt : Option String) :
    ChatStreamGenerator :=
  ⟨buildSingleMessages message system_prompt⟩

/-- Iterating the `_chat_stream` generator body to exhaustion against a given
transport: the `create` call happens now; each chunk whose delta content is
not `None` is yielded; every exception is re-raised as
`Exception("API call failed: ...")` at the point of failure. The result is
the list of yielded chunks paired with the error raised at the end, if any. -/
def consumeStream (g : ChatStreamGenerator) (transport : List ApiMessage → StreamResult) :
    List String × Option String :=
  match transport g.messages with
  | .error e => ([], some (apiFail e))
  | .ok (deltas, tailErr) => (deltas.filterMap id, tailErr.map apiFail)

/-- A deterministic backend used to compare the streaming and non-streaming
paths: it answers a non-streaming call with `fullText` and a streaming call
with the delta sequence `deltas`. It is *coherent* (the same deterministic
backend behind both endpoints) when the non-`None` deltas concatenate to
`fullText`. -/
structure DeterministicBackend where
  fullText : String
  deltas : List (Option String)

/-- The non-streaming answer of a deterministic backend. -/
def DeterministicBackend.createResult (b : DeterministicBackend) : CreateResult :=
  .ok ⟨[⟨some b.fullText⟩]⟩

/-- The streaming answer of a deterministic backend: its deltas, ending
normally. -/
def DeterministicBackend.streamTransport (b : DeterministicBackend) :
    List ApiMessage → StreamResult :=
  fun _ => .ok (b.deltas, none)

/-! ## Terminal capability detection (`src/main.py`, `is_terminal_compatible`) -/

/-- The environment signals `is_terminal_compatible` reads. -/
structure TermEnv where
  term : Option String
  term_program : Option String
  ssh_client : Option String
  ssh_tty : Option String

/-- The `TERM_PROGRAM` allow-list of modern terminals in `src/main.py`. -/
def modern_terminals : List String :=
  ["wezterm", "alacritty", "kitty", "windows terminal", "gnome-terminal",
   "konsole", "terminal.app"]

/-- The `TERM` substrings recognised as modern in `src/main.py`. -/
def modern_term_features : List String :=
  ["xterm-256color", "screen-256color", "tmux-256color"]

/-- The known-problematic exact `TERM` values in `src/main.py`. -/
def problematic_terms : List String :=
  ["screen", "linux", "dumb"]

/-- `is_terminal_compatible` from `src/main.py`: lower-cases
`TERM` and `TERM_PROGRAM` (absent reads as `""`), then checks in order:
`TERM_PROGRAM == "vscode"` → true; `TERM_PROGRAM` in the modern allow-list →
true; a truthy `SSH_CLIENT` or `SSH_TTY` → false; a modern substring inside
`TERM` → true; `TERM` in the problematic set → false; otherwise true. -/
def is_terminal_compatible (env : TermEnv) : Bool :=
  if pyLower (env.term_program.getD "") = "vscode" then true
  else if pyLower (env.term_program.getD "") ∈ modern_terminals then true
  else if optTruthy env.ssh_client || optTruthy env.ssh_tty then false
  else if modern_term_features.any (fun m => pyIn m (pyLower (env.term.getD ""))) then true
  else if pyLower (env.term.getD "") ∈ problematic_terms then false
  else true

/-! ## Render-mode selection (`run_single_message` / `run_interactive_mode`) -/

/-- The two terminal output strategies. -/
inductive RenderMode where
  | RICH
  | SIMPLE
deriving DecidableEq, Repr

/-- The `use_simple` computation shared by `run_single_message` and
`run_interactive_mode`: the `--simple-stream` flag forces simple output,
otherwise simple output is used exactly when the terminal is detected
incompatible. -/
def use_simple (simple_stream : Bool) (env : TermEnv) : Bool :=
  if simple_stream then true else !(is_terminal_compatible env)

/-- The effective render mode: SIMPLE when `use_simple`, else RICH (the
`Live` panel path). -/
def effectiveRenderMode (simple_stream : Bool) (env : TermEnv) : RenderMode :=
  if use_simple simple_stream env then .SIMPLE else .RICH

/-! ## Interactive session driver (`run_interactive_mode`) -/

/-- Message roles in a conversation. -/
inductive Role where
  | system
  | user
  | assistant
deriving DecidableEq, Repr

/-- One conversation history entry. -/
structure Msg where
  role : Role
  content : String
deriving DecidableEq, Repr

/-- The content of the initial system message: the supplied prompt when
truthy (Python `if system_prompt:`), else the default. -/
def startContent (system_prompt : Option String) : String :=
  if optTruthy system_prompt then system_prompt.getD "" else defaultSystemPrompt

/-- The `history` list as initialised at the top of `run_interactive_mode`:
a single system message. -/
def startHistory (system_prompt : Option String) : List Msg :=
  [⟨.system, startContent system_prompt⟩]

/-- The exit tokens recognised by the interactive loop. -/
def exitTokens : List String := ["exit", "quit", ":q", "q"]

/-- The loop's exit test: `user_input.strip().lower() in ["exit","quit",":q","q"]`. -/
def isExitCommand (s : String) : Bool :=
  pyLower (pyStrip s) ∈ exitTokens

/-- The backend's behaviour for one interactive turn, covering both the
streaming paths (chunk list) and the non-streaming path (a single chunk):
either the full reply arrives as `chunks`, or the call fails after the
terminal has already shown `shown` (with error text `err`). -/
inductive TurnOutcome where
  | success (chunks : List String)
  | failure (shown : List String) (err : String)
deriving DecidableEq, Repr

/-- Where one iteration of the `while True` loop leaves the driver. -/
inductive StepResult where
  | terminated (history : List Msg)
  | awaitingInput (history : List Msg) (err : Option String)
deriving DecidableEq, Repr

/-- One iteration of the interactive loop in `run_interactive_mode`, given
the user input and the backend's behaviour for the turn. An exit token
breaks out of the loop before anything is appended or requested; otherwise
the user message is appended, and the `try` block either accumulates the
full reply and appends it as one assistant message (`history.append` runs
after the chunk loop), or is aborted by the exception before that append,
leaving the user message in place, printing the error, and continuing the
loop. -/
def interactiveStep (history : List Msg) (input : String) (outcome : TurnOutcome) :
    StepResult :=
  if isExitCommand input then .terminated history
  else
    let h1 := history ++ [⟨.user, input⟩]
    match outcome with
    | .success chunks => .awaitingInput (h1 ++ [⟨.assistant, String.join chunks⟩]) none
    | .failure _ e => .awaitingInput h1 (some (apiFail e))

/-- The histories an interactive session can reach: the initial history, and
anything produced by a loop iteration that continues the session. -/
inductive ReachableHistory (system_prompt : Option String) : List Msg → Prop
  | start : ReachableHistory system_prompt (startHistory system_prompt)
  | step {h input outcome h1 err} :
      ReachableHistory system_prompt h →
      interactiveStep h input outcome = .awaitingInput h1 err →
      ReachableHistory system_prompt h1

/-! ## Helper lemmas -/

/-- A whitespace character is left unchanged by Python lower-casing. -/
lemma pyLowerChar_of_space {c : Char} (hc : pyIsSpace c = true) : pyLowerChar c = c := by
  simp only [pyIsSpace, Bool.or_eq_true, decide_eq_true_eq] at hc
  rcases hc with ((((h | h) | h) | h) | h) | h <;> subst h <;> decide

/-- No character of an exit token is whitespace. -/
lemma exitToken_no_space : ∀ t ∈ exitTokens, ∀ c ∈ t.data, pyIsSpace c = false := by
  decide

/-- A string whose lower-casing is an exit token contains no whitespace. -/
lemma no_space_of_lower_exit {s : String} (h : pyLower s ∈ exitTokens) :
    ∀ c ∈ s.data, pyIsSpace c = false := by
  intro c hc
  by_contra hsp
  have hsp' : pyIsSpace c = true := by
    revert hsp
    cases pyIsSpace c <;> simp
  have hmem : pyLowerChar c ∈ (pyLower s).data := by
    simp only [pyLower]
    exact List.mem_map.mpr ⟨c, hc, rfl⟩
  rw [pyLowerChar_of_space hsp'] at hmem
  have := exitToken_no_space (pyLower s) h c hmem
  rw [this] at hsp'
  exact Bool.false_ne_true hsp'

/-- `dropWhile` is the identity on a list whose head (if any) fails the
predicate. -/
lemma dropWhile_space_eq_self {l : List Char} (h : ∀ c ∈ l, pyIsSpace c = false) :
    l.dropWhile pyIsSpace = l := by
  cases l with
  | nil => rfl
  | cons a t => simp [List.dropWhile_cons, h a (List.mem_cons_self a t)]

/-- Stripping a whitespace-free character list is the identity. -/
lemma stripChars_eq_self {l : List Char} (h : ∀ c ∈ l, pyIsSpace c = false) :
    stripChars l = l := by
  unfold stripChars
  rw [dropWhile_space_eq_self h,
    dropWhile_space_eq_self (fun c hc => h c (List.mem_reverse.mp hc)),
    List.reverse_reverse]

/-- `str.strip()` is the identity on a whitespace-free string. -/
lemma pyStrip_eq_self {s : String} (h : ∀ c ∈ s.data, pyIsSpace c = false) :
    pyStrip s = s := by
  cases s with
  | mk data =>
      show String.mk (stripChars data) = String.mk data
      rw [stripChars_eq_self h]

/-- Any input whose lower-casing is an exit token passes the loop's
strip-then-lower exit test. -/
lemma isExitCommand_of_lower {s : String} (h : pyLower s ∈ exitTokens) :
    isExitCommand s = true := by
  unfold isExitCommand
  rw [pyStrip_eq_self (no_space_of_lower_exit h)]
  exact decide_eq_true h

/-- The shape of any history produced by a loop iteration that continues the
session: the previous history followed by the user message, and then the
assistant message exactly when the turn succeeded. -/
lemma interactiveStep_awaiting {h : List Msg} {i : String} {o : TurnOutcome}
    {h1 : List Msg} {err : Option String}
    (hs : interactiveStep h i o = .awaitingInput h1 err) :
    h1 = h ++ [⟨.user, i⟩] ∨
      ∃ chunks, h1 = h ++ [⟨.user, i⟩, ⟨.assistant, String.join chunks⟩] := by
  unfold interactiveStep at hs
  split at hs
  · exact absurd hs (by simp)
  · cases o with
    | success chunks =>
        right
        refine ⟨chunks, ?_⟩
        simp only [StepResult.awaitingInput.injEq] at hs
        rw [← hs.1, List.append_assoc]
        rfl
    | failure shown e =>
        left
        simp only [StepResult.awaitingInput.injEq] at hs
        exact hs.1.symm

/-- The session invariant: every reachable history starts with the initial
system message and contains exactly one system-role message. -/
lemma reachable_invariant {sys : Option String} {h : List Msg}
    (hr : ReachableHistory sys h) :
    h.head? = some ⟨.system, startContent sys⟩ ∧
      (h.map Msg.role).count Role.system = 1 := by
  induction hr with
  | start =>
      constructor
      · rfl
      · simp [startHistory]
  | step hr hstep ih =>
      rcases interactiveStep_awaiting hstep with heq | ⟨chunks, heq⟩ <;>
        subst heq <;>
        constructor
      · rw [List.head?_append_of_ne_nil _ (by rintro rfl; simp at ih)]
        exact ih.1
      · simp only [List.map_append, List.count_append]
        rw [ih.2]
        rfl
      · rw [List.head?_append_of_ne_nil _ (by rintro rfl; simp at ih)]
        exact ih.1
      · simp only [List.map_append, List.count_append]
        rw [ih.2]
        rfl

/-! ## Claim theorems -/

/-- C1 (counterexample): with `OPENAI_MODEL` set in the process environment
and also in the local override file, the resolved value is the local file's,
not the environment's — refuting the claim that a value set in the process
environment takes precedence over a value set in either file. -/
theorem c1_counterexample :
    load_env_files (fun k => if k = "OPENAI_MODEL" then some "from-env" else none)
        [] [("OPENAI_MODEL", "from-local")] "OPENAI_MODEL" = some "from-local" ∧
      load_env_files (fun k => if k = "OPENAI_MODEL" then some "from-env" else none)
        [] [("OPENAI_MODEL", "from-local")] "OPENAI_MODEL" ≠ some "from-env" := by
  constructor
  · rfl
  · intro hc
    rw [show load_env_files (fun k => if k = "OPENAI_MODEL" then some "from-env" else none)
          [] [("OPENAI_MODEL", "from-local")] "OPENAI_MODEL" = some "from-local" from rfl] at hc
    simp at hc

/-- C1 (amended): configuration resolution applies sources in precedence
order from lowest to highest: global per-user config file, then process
environment variables, then local directory override file. For every key,
the resolved value is the local file's value if the key appears there,
else the process environment's value if set, else the global file's value. -/
theorem c1_config_precedence (procEnv : Env) (globalFile localFile : EnvFile)
    (k : String) :
    load_env_files procEnv globalFile localFile k
      = orO (lookupLast localFile k) (orO (procEnv k) (lookupLast globalFile k)) := by
  unfold load_env_files load_dotenv
  cases hl : lookupLast localFile k <;>
    cases hg : lookupLast globalFile k <;>
      cases hp : procEnv k <;>
        simp [orO, hl, hg, hp]

/-- C2 (counterexample): a response whose single choice carries a null
message content makes the non-streaming call return `None` successfully —
refuting the claim that a contentless response fails with `TransportError`. -/
theorem c2_counterexample :
    chat_with_history (.ok ⟨[⟨none⟩]⟩) = .ok none ∧
      ∀ e : String, chat_with_history (.ok ⟨[⟨none⟩]⟩) ≠ .error e := by
  refine ⟨rfl, fun e hc => ?_⟩
  rw [show chat_with_history (.ok ⟨[⟨none⟩]⟩) = .ok none from rfl] at hc
  exact Except.noConfusion hc

/-- C2 (amended): the non-streaming completion call returns the first
choice's message content (even when that content is null); it fails with a
`TransportError` wrapping the cause when the underlying call errors, and
with a wrapped `IndexError` when the response carries no choices. -/
theorem c2_nonstreaming_result :
    (∀ e : String, chat_with_history (.error e) = .error (apiFail e)) ∧
      chat_with_history (.ok ⟨[]⟩) = .error (apiFail "list index out of range") ∧
      ∀ (c : ApiChoice) (rest : List ApiChoice),
        chat_with_history (.ok ⟨c :: rest⟩) = .ok c.content := by
  exact ⟨fun e => rfl, rfl, fun c rest => rfl⟩

/-- C4: against one identical deterministic backend, the streaming call
yields exactly the backend's non-null deltas, in order, with no failure, and
the non-streaming call returns exactly the concatenation of those chunks —
no reordering, loss, or duplication. -/
theorem c4_stream_roundtrip (msgs : List ApiMessage) (b : DeterministicBackend)
    (hcoherent : String.join (b.deltas.filterMap id) = b.fullText) :
    (consumeStream (chat_with_history_stream msgs) b.streamTransport).1
        = b.deltas.filterMap id ∧
      (consumeStream (chat_with_history_stream msgs) b.streamTransport).2 = none ∧
      chat_with_history b.createResult
        = .ok (some (String.join
            (consumeStream (chat_with_history_stream msgs) b.streamTransport).1)) := by
  refine ⟨rfl, rfl, ?_⟩
  show Except.ok (some b.fullText) = _
  rw [show (consumeStream (chat_with_history_stream msgs) b.streamTransport).1
      = b.deltas.filterMap id from rfl, hcoherent]

/-- C4 witness: the deterministic backend with full text `"Hello"` and
deltas `["He", None, "llo"]` satisfies the coherence hypothesis, and the
round-trip equality holds on it. -/
theorem c4_witness :
    (consumeStream (chat_with_history_stream [])
        (DeterministicBackend.streamTransport ⟨"Hello", [some "He", none, some "llo"]⟩)).1
        = ["He", "llo"] ∧
      chat_with_history
          (DeterministicBackend.createResult ⟨"Hello", [some "He", none, some "llo"]⟩)
        = .ok (some "Hello") := by
  have h := c4_stream_roundtrip [] ⟨"Hello", [some "He", none, some "llo"]⟩ (by rfl)
  refine ⟨h.1, ?_⟩
  rw [h.2.2, h.1]
  rfl

/-- C9: constructing the completion client succeeds iff `OPENAI_API_KEY`
resolves to a non-empty string; an absent or empty key yields the
configuration error, and `OPENAI_BASE_URL` / `OPENAI_MODEL` default to
`"https://api.openai.com/v1"` / `"gpt-3.5-turbo"` when unset. -/
theorem c9_client_init (env : Env) :
    ((∃ cfg, clientInit env = .ok cfg) ↔
        ∃ k, env "OPENAI_API_KEY" = some k ∧ k ≠ "") ∧
      ((env "OPENAI_API_KEY" = none ∨ env "OPENAI_API_KEY" = some "") →
        clientInit env = .error "OPENAI_API_KEY environment variable is required") ∧
      ∀ k, env "OPENAI_API_KEY" = some k → k ≠ "" →
        env "OPENAI_BASE_URL" = none → env "OPENAI_MODEL" = none →
        clientInit env = .ok ⟨k, "https://api.openai.com/v1", "gpt-3.5-turbo"⟩ := by
  refine ⟨?_, ?_, ?_⟩
  · constructor
    · rintro ⟨cfg, hcfg⟩
      unfold clientInit at hcfg
      cases hk : env "OPENAI_API_KEY" with
      | none => rw [hk] at hcfg; exact absurd hcfg (by simp)
      | some k =>
          rw [hk] at hcfg
          dsimp only at hcfg
          by_cases hke : k = ""
          · rw [if_pos hke] at hcfg
            exact absurd hcfg (by simp)
          · exact ⟨k, rfl, hke⟩
    · rintro ⟨k, hk, hke⟩
      refine ⟨⟨k, (env "OPENAI_BASE_URL").getD "https://api.openai.com/v1",
        (env "OPENAI_MODEL").getD "gpt-3.5-turbo"⟩, ?_⟩
      unfold clientInit
      rw [hk]
      dsimp only
      rw [if_neg hke]
  · rintro (hk | hk) <;> (unfold clientInit; rw [hk]; try simp)
  · intro k hk hke hb hm
    unfold clientInit
    rw [hk, hb, hm]
    dsimp only
    rw [if_neg hke]
    rfl

/-- C9 witness: an environment carrying only `OPENAI_API_KEY=sk-test`
constructs the client with the two documented defaults; the empty
environment fails with the configuration error. -/
theorem c9_witness :
    clientInit (fun k => if k = "OPENAI_API_KEY" then some "sk-test" else none)
        = .ok ⟨"sk-test", "https://api.openai.com/v1", "gpt-3.5-turbo"⟩ ∧
      clientInit (fun _ => none)
        = .error "OPENAI_API_KEY environment variable is required" := by
  constructor
  · exact (c9_client_init (fun k => if k = "OPENAI_API_KEY" then some "sk-test" else none)).2.2
      "sk-test" (by simp) (by simp) (by simp) (by simp)
  · exact (c9_client_init (fun _ => none)).2.1 (Or.inl rfl)

/-- C10: invoking a streaming completion returns the generator immediately,
carrying only the captured message list (the generator-returning functions
are total and take no transport, so no network interaction or error can
happen at call time); a transport error materialises only when the returned
sequence is consumed, yielding no chunks and the wrapped error. -/
theorem c10_stream_laziness :
    (∀ msgs, (chat_with_history_stream msgs).messages = msgs) ∧
      (∀ m sys, (chat_stream m sys).messages = buildSingleMessages m sys) ∧
      (∀ msgs e, consumeStream (chat_with_history_stream msgs) (fun _ => .error e)
        = ([], some (apiFail e))) ∧
      ∀ m sys e, consumeStream (chat_stream m sys) (fun _ => .error e)
        = ([], some (apiFail e)) := by
  exact ⟨fun _ => rfl, fun _ _ => rfl, fun _ _ => rfl, fun _ _ _ => rfl⟩

/-- C5: terminal capability detection is a pure function of the environment
signals, checked in order — a known-good `TERM_PROGRAM` wins over everything
(first conjunct holds for every other signal), an SSH indicator then forces
false regardless of `TERM` (third conjunct), then the `TERM`
substring/exact checks apply, with an optimistic true default: in
particular `TERM_PROGRAM=vscode` → true, `TERM=dumb` with no `TERM_PROGRAM`
→ false, `SSH_TTY` set (non-empty) with no recognised `TERM_PROGRAM` →
false, `TERM=xterm-256color` alone → true, and no signals at all → true. -/
theorem c5_terminal_detection :
    (∀ env : TermEnv, env.term_program = some "vscode" →
        is_terminal_compatible env = true) ∧
      (∀ env : TermEnv, env.term_program = none → env.term = some "dumb" →
        is_terminal_compatible env = false) ∧
      (∀ env : TermEnv, pyLower (env.term_program.getD "") ≠ "vscode" →
        pyLower (env.term_program.getD "") ∉ modern_terminals →
        optTruthy env.ssh_tty = true →
        is_terminal_compatible env = false) ∧
      is_terminal_compatible ⟨some "xterm-256color", none, none, none⟩ = true ∧
      is_terminal_compatible ⟨none, none, none, none⟩ = true := by
  refine ⟨?_, ?_, ?_, by decide, by decide⟩
  · intro env h
    unfold is_terminal_compatible
    rw [h]
    rfl
  · intro env h1 h2
    unfold is_terminal_compatible
    rw [h1, h2]
    cases hb : (optTruthy env.ssh_client || optTruthy env.ssh_tty) <;> decide
  · intro env h1 h2 h3
    unfold is_terminal_compatible
    rw [if_neg h1, if_neg h2, if_pos]
    rw [h3]
    exact Bool.or_true _

/-- C5 witness: the five explicit cases evaluated on concrete environments
through the theorem. -/
theorem c5_witness :
    is_terminal_compatible ⟨some "dumb", some "vscode", none, some "tty"⟩ = true ∧
      is_terminal_compatible ⟨some "dumb", none, none, none⟩ = false ∧
      is_terminal_compatible ⟨some "xterm-256color", none, none, some "/dev/pts/1"⟩
        = false ∧
      is_terminal_compatible ⟨some "xterm-256color", none, none, none⟩ = true ∧
      is_terminal_compatible ⟨none, none, none, none⟩ = true := by
  obtain ⟨h1, h2, h3, h4, h5⟩ := c5_terminal_detection
  exact ⟨h1 ⟨some "dumb", some "vscode", none, some "tty"⟩ rfl,
    h2 ⟨some "dumb", none, none, none⟩ rfl rfl,
    h3 ⟨some "xterm-256color", none, none, some "/dev/pts/1"⟩ (by decide) (by decide) rfl,
    h4, h5⟩

/-- C6: the effective render mode is SIMPLE whenever the `--simple-stream`
flag is set; without the flag it is RICH exactly when the terminal is
detected capable; and RICH is never selected for an incapable terminal,
whatever the flag. -/
theorem c6_render_mode_selection (flag : Bool) (env : TermEnv) :
    effectiveRenderMode true env = .SIMPLE ∧
      (effectiveRenderMode flag env = .RICH ↔
        flag = false ∧ is_terminal_compatible env = true) ∧
      (is_terminal_compatible env = false → effectiveRenderMode flag env = .SIMPLE) := by
  refine ⟨by simp [effectiveRenderMode, use_simple], ?_, ?_⟩
  · cases flag <;> cases hc : is_terminal_compatible env <;>
      simp [effectiveRenderMode, use_simple, hc]
  · intro hc
    cases flag <;> simp [effectiveRenderMode, use_simple, hc]

/-- C6 witness: on a `TERM=dumb` environment (detected incapable) the
selected mode is SIMPLE with and without the flag; on a capable environment
the flag-less mode is RICH. -/
theorem c6_witness :
    effectiveRenderMode true ⟨some "dumb", none, none, none⟩ = .SIMPLE ∧
      effectiveRenderMode false ⟨some "dumb", none, none, none⟩ = .SIMPLE ∧
      effectiveRenderMode false ⟨none, none, none, none⟩ = .RICH := by
  refine ⟨(c6_render_mode_selection true ⟨some "dumb", none, none, none⟩).1,
    (c6_render_mode_selection false ⟨some "dumb", none, none, none⟩).2.2 (by decide),
    ((c6_render_mode_selection false ⟨none, none, none, none⟩).2.1).mpr ⟨rfl, by decide⟩⟩

/-- C7: whenever the user input lower-cases to one of the exit tokens
`exit`, `quit`, `:q`, `q`, the loop iteration terminates the session with
the history unchanged — for every possible turn outcome, so no user message
is appended and no completion request is issued. -/
theorem c7_exit_tokens (h : List Msg) (input : String) (o : TurnOutcome)
    (hex : pyLower input ∈ exitTokens) :
    interactiveStep h input o = .terminated h := by
  unfold interactiveStep
  rw [if_pos (isExitCommand_of_lower hex)]

/-- C7 witness: the inputs `"q"`, `"Q"` and `":q"` terminate the session
from the initial history, for both a successful and a failing outcome. -/
theorem c7_witness :
    interactiveStep (startHistory none) "q" (.success ["x"])
        = .terminated (startHistory none) ∧
      interactiveStep (startHistory none) "Q" (.failure [] "boom")
        = .terminated (startHistory none) ∧
      interactiveStep (startHistory none) ":q" (.success [])
        = .terminated (startHistory none) := by
  exact ⟨c7_exit_tokens _ _ _ (by decide), c7_exit_tokens _ _ _ (by decide),
    c7_exit_tokens _ _ _ (by decide)⟩

/-- C3: when the stream fails mid-turn after yielding some already-shown
chunks, the iteration appends no assistant message — the history becomes
exactly the old history plus the just-appended user message — the wrapped
error is surfaced, and the driver returns to awaiting the next input (the
loop continues rather than terminating). -/
theorem c3_stream_failure_recovery (h : List Msg) (input : String)
    (shown : List String) (e : String) (hni : isExitCommand input = false) :
    interactiveStep h input (.failure shown e)
      = .awaitingInput (h ++ [⟨.user, input⟩]) (some (apiFail e)) := by
  unfold interactiveStep
  rw [hni]
  rfl

/-- C3 witness: the spec's scenario — a transport fault after the chunks
`["Hel", "lo"]` — leaves the conversation as system + user only and keeps
the session alive. -/
theorem c3_witness :
    interactiveStep (startHistory none) "Hello" (.failure ["Hel", "lo"] "transport fault")
      = .awaitingInput [⟨.system, defaultSystemPrompt⟩, ⟨.user, "Hello"⟩]
          (some "API call failed: transport fault") := by
  rw [c3_stream_failure_recovery (startHistory none) "Hello" ["Hel", "lo"]
    "transport fault" (by decide)]
  rfl

/-- C8: in every reachable interactive-session history the first message is
the single system message (the supplied prompt when non-empty, else the
default), every continuing iteration only appends (the old history is a
prefix of the new one, so nothing is removed or reordered), and a
successful non-exit turn appends exactly the user message followed by the
assistant message, leaving length = previous + 2. -/
theorem c8_conversation_invariant (sys : Option String) (h : List Msg)
    (hr : ReachableHistory sys h) (input : String) (chunks : List String)
    (o : TurnOutcome) (hni : isExitCommand input = false) :
    h.head? = some ⟨.system, startContent sys⟩ ∧
      (h.map Msg.role).count Role.system = 1 ∧
      (∀ h1 err, interactiveStep h input o = .awaitingInput h1 err → h <+: h1) ∧
      interactiveStep h input (.success chunks)
        = .awaitingInput
            (h ++ [(⟨.user, input⟩ : Msg), ⟨.assistant, String.join chunks⟩]) none ∧
      (h ++ [(⟨.user, input⟩ : Msg), ⟨.assistant, String.join chunks⟩]).length
        = h.length + 2 := by
  obtain ⟨hhead, hcount⟩ := reachable_invariant hr
  refine ⟨hhead, hcount, ?_, ?_, by simp⟩
  · intro h1 err hstep
    rcases interactiveStep_awaiting hstep with heq | ⟨cs, heq⟩ <;>
      exact heq ▸ List.prefix_append _ _
  · unfold interactiveStep
    rw [hni]
    dsimp only
    rw [List.append_assoc]
    rfl

/-- C8 witness: the spec's scenario — default system prompt, user `"Hello"`,
assistant `"Hi there"` — instantiated at the initial (reachable) history. -/
theorem c8_witness :
    (startHistory none).head? = some ⟨.system, "You are a helpful assistant"⟩ ∧
      interactiveStep (startHistory none) "Hello" (.success ["Hi ", "there"])
        = .awaitingInput
            ([⟨.system, "You are a helpful assistant"⟩, ⟨.user, "Hello"⟩,
              ⟨.assistant, "Hi there"⟩] : List Msg) none := by
  obtain ⟨h1, -, -, h4, -⟩ := c8_conversation_invariant none (startHistory none)
    ReachableHistory.start "Hello" ["Hi ", "there"] (.success ["Hi ", "there"]) (by decide)
  refine ⟨h1, ?_⟩
  rw [h4]
  rfl

end ChatCli
